import Mathlib

/-!
# Verification of the `bing` maps route client (`src/maps.js`)

Shallow embedding of the module's data model and operations:

* JavaScript values appearing in the query-argument hashes (`JsVal`),
* `JSON.parse` modelled as an executable partial parser (`jsonParse`;
  numeric literals are modelled as integers, which covers every body
  the claims mention),
* `encodeURIComponent` modelled byte-for-byte on UTF-8,
* the option hashes (`getDefaultOptions`, `getDefaultTransitOptions`,
  `getDefaultWalkingOptions`, `getDefaultDrivingOptions`) including the
  implicit global `curTime` (assigned without `var` in the source, hence
  threaded through an explicit `Globals` state),
* query-string construction (`objectToQueryString`, `createTransitUrl`,
  `createWalkingUrl`, `createDrivingUrl`),
* the response handler of `callBingApi` (the `request` callback), where a
  JavaScript exception (`TypeError` on a property access of `undefined`,
  `SyntaxError` from `JSON.parse`) is modelled as an explicit outcome, and
* the three public operations `getTransitRoute`, `getWalkingRoute`,
  `getDrivingRoute`.
-/

/-- JSON values as produced by `JSON.parse`.  Numeric literals are modelled
as integers; none of the bodies referenced by the specification involve
fractional numbers. -/
inductive Json where
  | null : Json
  | bool (b : Bool) : Json
  | num (n : Int) : Json
  | str (s : String) : Json
  | arr (elems : List Json) : Json
  | obj (fields : List (String × Json)) : Json

/-- JSON whitespace characters. -/
def isJsonWs (c : Char) : Bool :=
  c = ' ' || c = Char.ofNat 9 || c = Char.ofNat 10 || c = Char.ofNat 13

/-- Drop leading JSON whitespace. -/
def skipWs : List Char → List Char
  | [] => []
  | c :: cs => if isJsonWs c then skipWs cs else c :: cs

/-- Value of a hexadecimal digit character, if it is one. -/
def hexVal (c : Char) : Option Nat :=
  if c.toNat ≥ 48 ∧ c.toNat ≤ 57 then some (c.toNat - 48)
  else if c.toNat ≥ 97 ∧ c.toNat ≤ 102 then some (c.toNat - 87)
  else if c.toNat ≥ 65 ∧ c.toNat ≤ 70 then some (c.toNat - 55)
  else none

/-- The double-quote character. -/
def quoteChar : Char := Char.ofNat 34

/-- The backslash character. -/
def backslashChar : Char := Char.ofNat 92

/-- The opening-brace character. -/
def lbraceChar : Char := Char.ofNat 123

/-- The closing-brace character. -/
def rbraceChar : Char := Char.ofNat 125

/-- Parse the body of a JSON string literal (the opening quote already
consumed), returning the decoded string and the remaining input. -/
def parseStringBody : Nat → List Char → Option (String × List Char)
  | 0, _ => none
  | _ + 1, [] => none
  | fuel + 1, c :: cs =>
    if c = quoteChar then some ("", cs)
    else if c = backslashChar then
      match cs with
      | [] => none
      | e :: cs2 =>
        let esc : Option (String × List Char) :=
          if e = quoteChar then some (String.singleton quoteChar, cs2)
          else if e = backslashChar then some (String.singleton backslashChar, cs2)
          else if e = '/' then some ("/", cs2)
          else if e = 'b' then some (String.singleton (Char.ofNat 8), cs2)
          else if e = 'f' then some (String.singleton (Char.ofNat 12), cs2)
          else if e = 'n' then some (String.singleton (Char.ofNat 10), cs2)
          else if e = 'r' then some (String.singleton (Char.ofNat 13), cs2)
          else if e = 't' then some (String.singleton (Char.ofNat 9), cs2)
          else if e = 'u' then
            match cs2 with
            | h1 :: h2 :: h3 :: h4 :: cs3 =>
              match hexVal h1, hexVal h2, hexVal h3, hexVal h4 with
              | some a, some b, some c3, some d =>
                some (String.singleton (Char.ofNat (((a * 16 + b) * 16 + c3) * 16 + d)), cs3)
              | _, _, _, _ => none
            | _ => none
          else none
        match esc with
        | some (pre, rest) =>
          match parseStringBody fuel rest with
          | some (s, r) => some (pre ++ s, r)
          | none => none
        | none => none
    else
      match parseStringBody fuel cs with
      | some (s, r) => some (String.singleton c ++ s, r)
      | none => none

/-- Split a maximal run of decimal digits off the front of the input. -/
def takeDigits : List Char → List Char × List Char
  | [] => ([], [])
  | c :: cs =>
    if c.isDigit then
      let p := takeDigits cs
      (c :: p.1, p.2)
    else ([], c :: cs)

/-- Parse a nonempty run of decimal digits as a natural number. -/
def parseDigits (input : List Char) : Option (Nat × List Char) :=
  let p := takeDigits input
  if p.1.isEmpty then none
  else some (p.1.foldl (fun acc c => acc * 10 + (c.toNat - 48)) 0, p.2)

mutual

/-- Fuel-based recursive-descent parser for a single JSON value.  Returns
the value and the unconsumed remainder of the input. -/
def parseJsonValue : Nat → List Char → Option (Json × List Char)
  | 0, _ => none
  | fuel + 1, input =>
    match skipWs input with
    | [] => none
    | c :: cs =>
      if c = quoteChar then
        match parseStringBody (cs.length + 1) cs with
        | some (s, rest) => some (Json.str s, rest)
        | none => none
      else if c = lbraceChar then
        match skipWs cs with
        | d :: rest => if d = rbraceChar then some (Json.obj [], rest)
                       else
                         match parseMembers fuel (d :: rest) with
                         | some (ms, rest2) => some (Json.obj ms, rest2)
                         | none => none
        | [] => none
      else if c = '[' then
        match skipWs cs with
        | ']' :: rest => some (Json.arr [], rest)
        | cs2 =>
          match parseElements fuel cs2 with
          | some (es, rest2) => some (Json.arr es, rest2)
          | none => none
      else if c = 't' then
        match cs with
        | 'r' :: 'u' :: 'e' :: rest => some (Json.bool true, rest)
        | _ => none
      else if c = 'f' then
        match cs with
        | 'a' :: 'l' :: 's' :: 'e' :: rest => some (Json.bool false, rest)
        | _ => none
      else if c = 'n' then
        match cs with
        | 'u' :: 'l' :: 'l' :: rest => some (Json.null, rest)
        | _ => none
      else if c = '-' then
        match parseDigits cs with
        | some (n, rest) => some (Json.num (-(n : Int)), rest)
        | none => none
      else if c.isDigit then
        match parseDigits (c :: cs) with
        | some (n, rest) => some (Json.num (n : Int), rest)
        | none => none
      else none

/-- Parse the comma-separated elements of a JSON array, including the
closing bracket. -/
def parseElements : Nat → List Char → Option (List Json × List Char)
  | 0, _ => none
  | fuel + 1, input =>
    match parseJsonValue fuel input with
    | none => none
    | some (j, rest) =>
      match skipWs rest with
      | ',' :: rest2 =>
        match parseElements fuel rest2 with
        | some (js, rest3) => some (j :: js, rest3)
        | none => none
      | ']' :: rest2 => some ([j], rest2)
      | _ => none

/-- Parse the comma-separated members of a JSON object, including the
closing brace. -/
def parseMembers : Nat → List Char → Option (List (String × Json) × List Char)
  | 0, _ => none
  | fuel + 1, input =>
    match skipWs input with
    | c :: cs =>
      if c = quoteChar then
        match parseStringBody (cs.length + 1) cs with
        | none => none
        | some (k, rest) =>
          match skipWs rest with
          | ':' :: rest2 =>
            match parseJsonValue fuel rest2 with
            | none => none
            | some (v, rest3) =>
              match skipWs rest3 with
              | ',' :: rest4 =>
                match parseMembers fuel rest4 with
                | some (ms, rest5) => some ((k, v) :: ms, rest5)
                | none => none
              | d :: rest4 => if d = rbraceChar then some ([(k, v)], rest4) else none
              | [] => none
          | _ => none
      else none
    | [] => none

end

/-- `JSON.parse` on a whole input string: a single JSON value surrounded by
optional whitespace; anything else fails. -/
def jsonParse (s : String) : Option Json :=
  match parseJsonValue (s.length + 1) s.toList with
  | some (j, rest) => if (skipWs rest).isEmpty then some j else none
  | none => none

/-! ## JavaScript values and `encodeURIComponent` -/

/-- The JavaScript values that occur in the query-argument hashes of the
source: strings, numbers (`maxSolutionCount` is 3), and `undefined` (the
API key when the environment variable is absent). -/
inductive JsVal where
  | str (s : String) : JsVal
  | num (n : Nat) : JsVal
  | undef : JsVal
deriving DecidableEq, Repr

/-- JavaScript string coercion as performed by string concatenation and
`encodeURIComponent` on its argument. -/
def jsValToString : JsVal → String
  | .str s => s
  | .num n => toString n
  | .undef => "undefined"

/-- The characters `encodeURIComponent` leaves unescaped:
`A-Z a-z 0-9 - _ . ! ~ * ( )` and the apostrophe (code point 39). -/
def isUriUnreserved (c : Char) : Bool :=
  c.isAlpha || c.isDigit || c = '-' || c = '_' || c = '.' || c = '!' ||
    c = '~' || c = '*' || c = Char.ofNat 39 || c = '(' || c = ')'

/-- Uppercase hexadecimal digit for `n < 16`. -/
def hexDigitChar (n : Nat) : Char :=
  if n < 10 then Char.ofNat (48 + n) else Char.ofNat (55 + n)

/-- `%XX` escape of one byte. -/
def percentEncodeByte (b : Nat) : String :=
  "%" ++ String.singleton (hexDigitChar (b / 16)) ++ String.singleton (hexDigitChar (b % 16))

/-- UTF-8 bytes of a character. -/
def charUtf8Bytes (c : Char) : List Nat :=
  let n := c.toNat
  if n < 128 then [n]
  else if n < 2048 then [192 + n / 64, 128 + n % 64]
  else if n < 65536 then [224 + n / 4096, 128 + (n / 64) % 64, 128 + n % 64]
  else [240 + n / 262144, 128 + (n / 4096) % 64, 128 + (n / 64) % 64, 128 + n % 64]

/-- JavaScript `encodeURIComponent`: unreserved characters pass through,
every other character is escaped as the `%XX` codes of its UTF-8 bytes. -/
def encodeURIComponent (s : String) : String :=
  String.join (s.toList.map fun c =>
    if isUriUnreserved c then String.singleton c
    else String.join ((charUtf8Bytes c).map percentEncodeByte))

/-! ## Module constants, globals and option hashes -/

/-- `SERVICE_URL` from `src/maps.js`. -/
def SERVICE_URL : String := "http://dev.virtualearth.net/REST/v1"

/-- `TRANSIT_RESOURCE` from `src/maps.js`. -/
def TRANSIT_RESOURCE : String := "Routes/Transit"

/-- `WALKING_RESOURCE` from `src/maps.js`. -/
def WALKING_RESOURCE : String := "Routes/Walking"

/-- `DRIVING_RESOURCE` from `src/maps.js`. -/
def DRIVING_RESOURCE : String := "Routes/Driving"

/-- The result of the UTC getters of a JavaScript `Date`: `getUTCMonth()`
(0-based), `getUTCDate()` (day of month), `getUTCFullYear()`,
`getUTCHours()`, `getUTCMinutes()`, `getUTCSeconds()`. -/
structure UTCDate where
  month : Nat
  date : Nat
  fullYear : Nat
  hours : Nat
  minutes : Nat
  seconds : Nat
deriving DecidableEq, Repr

/-- The mutable state outside the module's scope: `getDefaultOptions`
assigns `curTime = new Date()` without a `var` declaration, creating a
global variable; `none` models the name being undeclared. -/
structure Globals where
  curTime : Option UTCDate
deriving DecidableEq, Repr

/-- The options hash built by the `getDefault*Options` functions.  Fields
absent from a hash are `none`. -/
structure RouteOptions where
  optimize : String
  distanceUnit : String
  outputType : String
  travelTime : Option String := none
  timeType : Option String := none
  maxSolutionCount : Option Nat := none
deriving DecidableEq, Repr

/-- The `travelTime` string built inside `getDefaultTransitOptions`:
`(getUTCMonth()+1) + "/" + getUTCDate() + "/" + getUTCFullYear() + " " +
getUTCHours() + ":" + getUTCMinutes() + ":" + getUTCSeconds()`. -/
def formatTransitTravelTime (d : UTCDate) : String :=
  toString (d.month + 1) ++ "/" ++ toString d.date ++ "/" ++ toString d.fullYear ++ " " ++
    toString d.hours ++ ":" ++ toString d.minutes ++ ":" ++ toString d.seconds

/-- `getDefaultOptions` from `src/maps.js`.  `now` is the `Date` the call
constructs; the assignment `curTime = new Date()` (no `var`) updates the
global state. -/
def getDefaultOptions (now : UTCDate) (_g : Globals) : RouteOptions × Globals :=
  ({ optimize := "time", distanceUnit := "mi", outputType := "json" },
   { curTime := some now })

/-- `getDefaultTransitOptions` from `src/maps.js`: starts from
`getDefaultOptions()` and reads the global `curTime` to build the
`travelTime` field.  Reading the name while undeclared would throw a
`ReferenceError`, modelled as `none`. -/
def getDefaultTransitOptions (now : UTCDate) (g : Globals) :
    Option (RouteOptions × Globals) :=
  let p := getDefaultOptions now g
  match p.2.curTime with
  | some t =>
    some ({ p.1 with
            travelTime := some (formatTransitTravelTime t)
            timeType := some "Departure"
            maxSolutionCount := some 3 }, p.2)
  | none => none

/-- `getDefaultWalkingOptions` from `src/maps.js`. -/
def getDefaultWalkingOptions (now : UTCDate) (g : Globals) : RouteOptions × Globals :=
  let p := getDefaultOptions now g
  ({ p.1 with optimize := "distance" }, p.2)

/-- `getDefaultDrivingOptions` from `src/maps.js`. -/
def getDefaultDrivingOptions (now : UTCDate) (g : Globals) : RouteOptions × Globals :=
  let p := getDefaultOptions now g
  ({ p.1 with optimize := "time" }, p.2)

/-! ## Query-string construction -/

/-- `convertLocationsAndOptionsToQueryStringArgs` from `src/maps.js`: the
argument hash in insertion order (which is the `for-in` enumeration order
for these non-index string keys).  The `dt`, `tt` and `maxSolutions` keys
are added only when the corresponding option field is truthy (a nonempty
string, a nonzero number). -/
def convertLocationsAndOptionsToQueryStringArgs (apiKey : JsVal)
    (startLocation endLocation : String) (options : RouteOptions) :
    List (String × JsVal) :=
  [("wp.0", JsVal.str startLocation), ("wp.1", JsVal.str endLocation),
   ("key", apiKey), ("o", JsVal.str options.outputType),
   ("optmz", JsVal.str options.optimize), ("du", JsVal.str options.distanceUnit)] ++
  (match options.travelTime with
   | some s => if s = "" then [] else [("dt", JsVal.str s)]
   | none => []) ++
  (match options.timeType with
   | some s => if s = "" then [] else [("tt", JsVal.str s)]
   | none => []) ++
  (match options.maxSolutionCount with
   | some n => if n = 0 then [] else [("maxSolutions", JsVal.num n)]
   | none => [])

/-- One `key + '=' + encodeURIComponent(obj[key])` segment of the query
string. -/
def renderArg (p : String × JsVal) : String :=
  p.1 ++ "=" ++ encodeURIComponent (jsValToString p.2)

/-- The `for-in` loop of `objectToQueryString`: push each rendered pair
onto the `args` array. -/
def renderArgs (pairs : List (String × JsVal)) : List String :=
  pairs.foldl (fun acc p => acc ++ [renderArg p]) []

/-- JavaScript `Array.prototype.join` with separator `&`. -/
def joinAmp : List String → String
  | [] => ""
  | [s] => s
  | s :: rest => s ++ "&" ++ joinAmp rest

/-- `objectToQueryString` from `src/maps.js`.  `none` models a falsy
argument (`undefined`/`null`), `some pairs` an object with the given
key-value pairs in enumeration order.  Note that an empty object is truthy
in JavaScript, so `some []` takes the first branch. -/
def objectToQueryString : Option (List (String × JsVal)) → String
  | some pairs => "?" ++ joinAmp (renderArgs pairs)
  | none => ""

/-- `createTransitUrl` from `src/maps.js`. -/
def createTransitUrl (queryArgs : Option (List (String × JsVal))) : String :=
  SERVICE_URL ++ "/" ++ TRANSIT_RESOURCE ++ objectToQueryString queryArgs

/-- `createWalkingUrl` from `src/maps.js`. -/
def createWalkingUrl (queryArgs : Option (List (String × JsVal))) : String :=
  SERVICE_URL ++ "/" ++ WALKING_RESOURCE ++ objectToQueryString queryArgs

/-- `createDrivingUrl` from `src/maps.js`. -/
def createDrivingUrl (queryArgs : Option (List (String × JsVal))) : String :=
  SERVICE_URL ++ "/" ++ DRIVING_RESOURCE ++ objectToQueryString queryArgs

/-! ## The response handler of `callBingApi` -/

/-- A network-level error delivered by the `request` library as the first
argument of its callback. -/
structure TransportErr where
  code : String
deriving DecidableEq, Repr

/-- The HTTP response object delivered by the `request` library; absent
(`undefined`) on a transport failure. -/
structure Response where
  statusCode : Nat
deriving DecidableEq, Repr

/-- The second argument the module passes to the user's callback: either
the parsed JSON body, or the error envelope
`\x7b error: \x7b statusCode, body \x7d \x7d`. -/
inductive CallbackArg where
  | success (body : Json) : CallbackArg
  | errorEnvelope (statusCode : Nat) (body : Json) : CallbackArg

/-- One invocation of the user callback: its first argument (the transport
error or `undefined`) and its second argument. -/
abbrev Invocation := Option TransportErr × CallbackArg

/-- JavaScript exceptions the handler can raise: a `TypeError` from
reading `statusCode` of an `undefined` response, a `SyntaxError` from
`JSON.parse`. -/
inductive JsError where
  | typeError : JsError
  | syntaxError : JsError
deriving DecidableEq, Repr

/-- JavaScript string coercion of the `body` callback parameter
(`undefined` stringifies to `"undefined"` inside `JSON.parse`). -/
def stringOfBody : Option String → String
  | some s => s
  | none => "undefined"

/-- The response handler installed by `callBingApi` in `src/maps.js`,
evaluated on what the transport delivers: `err`, `response`, `body`.
Returns the list of callback invocations performed (in order) and the
exception that escaped, if any.

Faithful to the source's control flow:
`if (!err && response.statusCode == 200)` evaluates
`response.statusCode` only when `err` is falsy, throwing a `TypeError`
when `response` is `undefined`; the success branch runs
`callback(undefined, JSON.parse(body))` and the else branch runs
`callback(err, \x7b error: \x7b statusCode: response.statusCode,
body: JSON.parse(body) \x7d \x7d)`, each guarded by `if (callback)`. -/
def callBingApi (err : Option TransportErr) (resp : Option Response)
    (body : Option String) (hasCallback : Bool) :
    List Invocation × Option JsError :=
  match err with
  | none =>
    match resp with
    | none => ([], some JsError.typeError)
    | some r =>
      if r.statusCode = 200 then
        if hasCallback then
          match jsonParse (stringOfBody body) with
          | some j => ([(none, CallbackArg.success j)], none)
          | none => ([], some JsError.syntaxError)
        else ([], none)
      else
        if hasCallback then
          match jsonParse (stringOfBody body) with
          | some j => ([(none, CallbackArg.errorEnvelope r.statusCode j)], none)
          | none => ([], some JsError.syntaxError)
        else ([], none)
  | some e =>
    if hasCallback then
      match resp with
      | none => ([], some JsError.typeError)
      | some r =>
        match jsonParse (stringOfBody body) with
        | some j => ([(some e, CallbackArg.errorEnvelope r.statusCode j)], none)
        | none => ([], some JsError.syntaxError)
    else ([], none)

/-! ## The three public operations -/

/-- Everything observable about one call to a public operation: the URL it
requests, the callback invocations once the (stubbed) transport completes
with `err`/`resp`/`body`, the exception that escaped the handler if any,
and the global state after the option hash was built. -/
structure CallOutcome where
  requestUrl : String
  invocations : List Invocation
  thrown : Option JsError
  finalGlobals : Globals

/-- `exports.getTransitRoute` from `src/maps.js`, with the module-level
credential `apiKey`, the current time `now`, the pre-call global state
`g`, and the stub transport's completion values.  `none` would model the
unreachable `ReferenceError` on the global `curTime`. -/
def getTransitRoute (apiKey : JsVal) (startLocation endLocation : String)
    (now : UTCDate) (g : Globals) (err : Option TransportErr)
    (resp : Option Response) (body : Option String) (hasCallback : Bool) :
    Option CallOutcome :=
  match getDefaultTransitOptions now g with
  | some p =>
    let queryStringArgs :=
      convertLocationsAndOptionsToQueryStringArgs apiKey startLocation endLocation p.1
    let requestUrl := createTransitUrl (some queryStringArgs)
    let r := callBingApi err resp body hasCallback
    some { requestUrl := requestUrl, invocations := r.1, thrown := r.2,
           finalGlobals := p.2 }
  | none => none

/-- `exports.getWalkingRoute` from `src/maps.js`. -/
def getWalkingRoute (apiKey : JsVal) (startLocation endLocation : String)
    (now : UTCDate) (g : Globals) (err : Option TransportErr)
    (resp : Option Response) (body : Option String) (hasCallback : Bool) :
    CallOutcome :=
  let p := getDefaultWalkingOptions now g
  let queryStringArgs :=
    convertLocationsAndOptionsToQueryStringArgs apiKey startLocation endLocation p.1
  let requestUrl := createWalkingUrl (some queryStringArgs)
  let r := callBingApi err resp body hasCallback
  { requestUrl := requestUrl, invocations := r.1, thrown := r.2,
    finalGlobals := p.2 }

/-- `exports.getDrivingRoute` from `src/maps.js`. -/
def getDrivingRoute (apiKey : JsVal) (startLocation endLocation : String)
    (now : UTCDate) (g : Globals) (err : Option TransportErr)
    (resp : Option Response) (body : Option String) (hasCallback : Bool) :
    CallOutcome :=
  let p := getDefaultDrivingOptions now g
  let queryStringArgs :=
    convertLocationsAndOptionsToQueryStringArgs apiKey startLocation endLocation p.1
  let requestUrl := createDrivingUrl (some queryStringArgs)
  let r := callBingApi err resp body hasCallback
  { requestUrl := requestUrl, invocations := r.1, thrown := r.2,
    finalGlobals := p.2 }

/-! ## Helper lemmas -/

/-- A concrete `Date` used to instantiate witnesses: 2011-09-15 12:30:45 UTC
(`getUTCMonth()` is 8 for September). -/
def dateStub : UTCDate := ⟨8, 15, 2011, 12, 30, 45⟩

/-- The `travelTime` string is never empty (it contains literal separator
characters), so the `if (options.travelTime)` guard in
`convertLocationsAndOptionsToQueryStringArgs` always passes for transit. -/
theorem formatTransitTravelTime_ne_empty (d : UTCDate) :
    formatTransitTravelTime d ≠ "" := by
  unfold formatTransitTravelTime
  intro h
  have hlen := congrArg String.length h
  simp only [String.length_append] at hlen
  have h1 : ("/" : String).length = 1 := rfl
  have h2 : ("" : String).length = 0 := rfl
  rw [h1, h2] at hlen
  omega

/-- The `for-in` push loop of `objectToQueryString` renders each pair in
order: its `args` array is the map of the rendering function over the
pairs. -/
theorem renderArgs_eq_map (pairs : List (String × JsVal)) :
    renderArgs pairs = pairs.map renderArg := by
  have h : ∀ (l : List (String × JsVal)) (acc : List String),
      l.foldl (fun acc p => acc ++ [renderArg p]) acc = acc ++ l.map renderArg := by
    intro l
    induction l with
    | nil => intro acc; simp
    | cons x xs ih => intro acc; simp [ih]
  simpa [renderArgs] using h pairs []

/-! ## Claim theorems -/

/-- C4 (counterexample): the claim says a map with no arguments yields the
empty string, but an empty (present) JavaScript object is truthy, so
`objectToQueryString` returns `"?"` for it, not `""`. -/
theorem c4_counterexample :
    objectToQueryString (some []) = "?" ∧ objectToQueryString (some []) ≠ "" := by
  refine ⟨rfl, ?_⟩
  decide

/-- C4 (amended): for every present argument map, `objectToQueryString`
produces each pair as `key=percent-encoded-value`, joins the pairs with
`&`, and prefixes the result with `?`; the empty string (no `?`) is
returned only when the map argument itself is absent (`undefined`/`null`),
while a present map with no arguments yields just `"?"`. -/
theorem c4_amended (pairs : List (String × JsVal)) :
    objectToQueryString (some pairs) =
      "?" ++ joinAmp (pairs.map fun p =>
        p.1 ++ "=" ++ encodeURIComponent (jsValToString p.2)) ∧
    objectToQueryString none = "" ∧
    objectToQueryString (some []) = "?" := by
  refine ⟨?_, rfl, rfl⟩
  show "?" ++ joinAmp (renderArgs pairs) = _
  rw [renderArgs_eq_map]
  rfl

/-- C5: the options resolved per mode satisfy: transit and driving have
`optimize = "time"`, walking has `optimize = "distance"`, and all three
modes have `distanceUnit = "mi"` and `outputType = "json"`. -/
theorem c5_mode_defaults (now : UTCDate) (g : Globals) :
    (∃ p, getDefaultTransitOptions now g = some p ∧
      p.1.optimize = "time" ∧ p.1.distanceUnit = "mi" ∧ p.1.outputType = "json") ∧
    ((getDefaultDrivingOptions now g).1.optimize = "time" ∧
      (getDefaultDrivingOptions now g).1.distanceUnit = "mi" ∧
      (getDefaultDrivingOptions now g).1.outputType = "json") ∧
    ((getDefaultWalkingOptions now g).1.optimize = "distance" ∧
      (getDefaultWalkingOptions now g).1.distanceUnit = "mi" ∧
      (getDefaultWalkingOptions now g).1.outputType = "json") :=
  ⟨⟨_, rfl, rfl, rfl, rfl⟩, ⟨rfl, rfl, rfl⟩, ⟨rfl, rfl, rfl⟩⟩

/-- C8: for every transit call, the resolved options equal
`optimize = "time"`, `distanceUnit = "mi"`, `outputType = "json"`,
`travelTime` the current UTC time formatted `M/D/YYYY H:M:S` with the
month 1-based (no zero-padding), `timeType = "Departure"`, and
`maxSolutionCount = 3`. -/
theorem c8_transit_options (now : UTCDate) (g : Globals) :
    getDefaultTransitOptions now g = some
      (RouteOptions.mk "time" "mi" "json"
        (some (toString (now.month + 1) ++ "/" ++ toString now.date ++ "/" ++
          toString now.fullYear ++ " " ++ toString now.hours ++ ":" ++
          toString now.minutes ++ ":" ++ toString now.seconds))
        (some "Departure") (some 3),
       Globals.mk (some now)) := rfl

/-- C9: contrary to the claim that no operation writes module-level
mutable state beyond the read-only credential, `getDefaultOptions`
executes `curTime = new Date()` without a `var` declaration, so every
call to a public operation (here `getWalkingRoute`) writes the global
`curTime`, and the timestamp created during the call persists in that
global after the call completes. -/
theorem c9_global_curtime_mutation :
    (getWalkingRoute JsVal.undef "100 N Broad St, Philadelphia"
        "908 N 3rd St., Philadelphia" dateStub ⟨none⟩ none none none
        false).finalGlobals = ⟨some dateStub⟩ ∧
    (⟨some dateStub⟩ : Globals) ≠ ⟨none⟩ := by
  refine ⟨rfl, ?_⟩
  decide

/-- C2: contrary to the claim, when the transport itself fails (network
error: `err` set, `response` and `body` undefined) the handler evaluates
`response.statusCode` on `undefined`, which throws a `TypeError`; the
callback is never invoked. -/
theorem c2_transport_error_throws :
    callBingApi (some ⟨"ECONNREFUSED"⟩) none none true =
      ([], some JsError.typeError) := rfl

/-- C1 (counterexample): a transport completion with status 404 and the
raw (non-JSON) body `Not Found` does not invoke the callback at all:
`JSON.parse` of the error body throws a `SyntaxError` first, so no error
envelope is delivered. -/
theorem c1_counterexample :
    callBingApi none (some ⟨404⟩) (some "Not Found") true =
      ([], some JsError.syntaxError) := rfl

/-- C1 (amended): for every call whose transport completes with a non-200
status and a response body that parses as JSON, the callback is invoked
with the error envelope whose `statusCode` equals the response status and
whose `body` is the parsed JSON body; when the body is not valid JSON the
parse failure propagates and the callback is not invoked. -/
theorem c1_amended (e : Option TransportErr) (r : Response) (body : String)
    (j : Json) (hstatus : r.statusCode ≠ 200) (hparse : jsonParse body = some j) :
    callBingApi e (some r) (some body) true =
      ([(e, CallbackArg.errorEnvelope r.statusCode j)], none) := by
  cases e with
  | none => simp [callBingApi, stringOfBody, hstatus, hparse]
  | some e => simp [callBingApi, stringOfBody, hparse]

/-- C1 (witness): the stub of the specification with the body being the
JSON text `"Not Found"` (status 404). -/
theorem c1_amended_witness :
    (404 : Nat) ≠ 200 ∧
    jsonParse "\"Not Found\"" = some (Json.str "Not Found") ∧
    callBingApi none (some ⟨404⟩) (some "\"Not Found\"") true =
      ([(none, CallbackArg.errorEnvelope 404 (Json.str "Not Found"))], none) :=
  ⟨by decide, rfl, c1_amended none ⟨404⟩ "\"Not Found\"" (Json.str "Not Found")
    (by decide) rfl⟩

/-- C7: for every call of any of the three operations whose transport
succeeds with HTTP status 200 and a body that parses as JSON, the
callback is invoked with first argument `undefined` and second argument
the parsed JSON value of the body, and nothing is thrown. -/
theorem c7_success_parsed (apiKey : JsVal) (sL eL : String) (now : UTCDate)
    (g : Globals) (body : String) (j : Json) (hparse : jsonParse body = some j) :
    (∃ ot, getTransitRoute apiKey sL eL now g none (some ⟨200⟩) (some body) true =
        some ot ∧
      ot.invocations = [(none, CallbackArg.success j)] ∧ ot.thrown = none) ∧
    ((getWalkingRoute apiKey sL eL now g none (some ⟨200⟩) (some body)
        true).invocations = [(none, CallbackArg.success j)] ∧
      (getWalkingRoute apiKey sL eL now g none (some ⟨200⟩) (some body)
        true).thrown = none) ∧
    ((getDrivingRoute apiKey sL eL now g none (some ⟨200⟩) (some body)
        true).invocations = [(none, CallbackArg.success j)] ∧
      (getDrivingRoute apiKey sL eL now g none (some ⟨200⟩) (some body)
        true).thrown = none) := by
  refine ⟨⟨_, rfl, ?_, ?_⟩, ⟨?_, ?_⟩, ⟨?_, ?_⟩⟩ <;>
    simp [getTransitRoute, getWalkingRoute, getDrivingRoute, getDefaultTransitOptions,
      getDefaultOptions, getDefaultWalkingOptions, getDefaultDrivingOptions,
      callBingApi, stringOfBody, hparse]

/-- C7 (witness): the stub of the specification — status 200 with body
`\x7b"resourceSets":[]\x7d` delivers the parsed object. -/
theorem c7_success_parsed_witness :
    jsonParse "\x7b\"resourceSets\":[]\x7d" =
      some (Json.obj [("resourceSets", Json.arr [])]) ∧
    (getWalkingRoute JsVal.undef "100 N Broad St, Philadelphia"
        "908 N 3rd St., Philadelphia" dateStub ⟨none⟩ none (some ⟨200⟩)
        (some "\x7b\"resourceSets\":[]\x7d") true).invocations =
      [(none, CallbackArg.success (Json.obj [("resourceSets", Json.arr [])]))] :=
  ⟨rfl, (c7_success_parsed JsVal.undef "100 N Broad St, Philadelphia"
    "908 N 3rd St., Philadelphia" dateStub ⟨none⟩ "\x7b\"resourceSets\":[]\x7d"
    (Json.obj [("resourceSets", Json.arr [])]) rfl).2.1.1⟩

/-- C6: the argument hash (hence the query string) built for a transit
route contains exactly the keys `wp.0, wp.1, key, o, optmz, du` plus the
transit-only keys `dt`, `tt`, `maxSolutions`, while the hashes built for
walking and driving routes contain only the first six — the transit-only
keys are added just when `travelTime`, `timeType`, `maxSolutionCount` are
present in the options. -/
theorem c6_transit_only_keys (apiKey : JsVal) (sL eL : String) (now : UTCDate)
    (g : Globals) :
    (∃ p, getDefaultTransitOptions now g = some p ∧
      (convertLocationsAndOptionsToQueryStringArgs apiKey sL eL p.1).map Prod.fst =
        ["wp.0", "wp.1", "key", "o", "optmz", "du", "dt", "tt", "maxSolutions"]) ∧
    (convertLocationsAndOptionsToQueryStringArgs apiKey sL eL
        (getDefaultWalkingOptions now g).1).map Prod.fst =
      ["wp.0", "wp.1", "key", "o", "optmz", "du"] ∧
    (convertLocationsAndOptionsToQueryStringArgs apiKey sL eL
        (getDefaultDrivingOptions now g).1).map Prod.fst =
      ["wp.0", "wp.1", "key", "o", "optmz", "du"] := by
  refine ⟨⟨_, rfl, ?_⟩, rfl, rfl⟩
  have hne := formatTransitTravelTime_ne_empty now
  simp [convertLocationsAndOptionsToQueryStringArgs, getDefaultTransitOptions,
    getDefaultOptions, hne]

/-- The callback contract for one completed call, relative to what the
stub transport delivered: the callback runs at most once; it runs exactly
once whenever a response object exists and `JSON.parse` of the (string
coercion of the) body succeeds; and every invocation carries either
`(undefined, parsedBody)` or `(the transport error or undefined, an error
envelope)`. -/
def invocationsOk (err : Option TransportErr) (resp : Option Response)
    (body : Option String) (invs : List Invocation) : Prop :=
  invs.length ≤ 1 ∧
  (resp.isSome → (jsonParse (stringOfBody body)).isSome → invs.length = 1) ∧
  ∀ iv ∈ invs,
    (iv.1 = none ∧ ∃ j, iv.2 = CallbackArg.success j) ∨
    (iv.1 = err ∧ ∃ sc j, iv.2 = CallbackArg.errorEnvelope sc j)

/-- The response handler satisfies the (amended) callback contract. -/
theorem invocationsOk_callBingApi (err : Option TransportErr)
    (resp : Option Response) (body : Option String) :
    invocationsOk err resp body (callBingApi err resp body true).1 := by
  unfold invocationsOk callBingApi
  cases err with
  | none =>
    cases resp with
    | none => simp
    | some r =>
      by_cases h200 : r.statusCode = 200
      · cases hp : jsonParse (stringOfBody body) <;> simp [h200, hp]
      · cases hp : jsonParse (stringOfBody body) <;> simp [h200, hp]
  | some e =>
    cases resp with
    | none => simp
    | some r => cases hp : jsonParse (stringOfBody body) <;> simp [hp]

/-- C3 (counterexample): the claim says the callback is never skipped
once the transport completes, but a completed non-200 response whose body
is not valid JSON (here status 500 with the raw text
`Internal Server Error`) makes `JSON.parse` throw inside the handler of a
public operation: zero invocations, a `SyntaxError` escapes. -/
theorem c3_counterexample :
    (getWalkingRoute JsVal.undef "100 N Broad St, Philadelphia"
        "908 N 3rd St., Philadelphia" dateStub ⟨none⟩ none (some ⟨500⟩)
        (some "Internal Server Error") true).invocations = [] ∧
    (getWalkingRoute JsVal.undef "100 N Broad St, Philadelphia"
        "908 N 3rd St., Philadelphia" dateStub ⟨none⟩ none (some ⟨500⟩)
        (some "Internal Server Error") true).thrown = some JsError.syntaxError :=
  ⟨rfl, rfl⟩

/-- C3 (amended): for every call to any of the three public operations
with a callback supplied, the callback is invoked at most once and with
one of the two permitted shapes; it is invoked exactly once whenever the
transport delivered a response object and the relevant `JSON.parse` of
the body succeeds.  When the transport fails without a response, or the
body does not parse as JSON, an exception propagates and the callback is
skipped. -/
theorem c3_amended (apiKey : JsVal) (sL eL : String) (now : UTCDate)
    (g : Globals) (err : Option TransportErr) (resp : Option Response)
    (body : Option String) :
    (∃ ot, getTransitRoute apiKey sL eL now g err resp body true = some ot ∧
      invocationsOk err resp body ot.invocations) ∧
    invocationsOk err resp body
      (getWalkingRoute apiKey sL eL now g err resp body true).invocations ∧
    invocationsOk err resp body
      (getDrivingRoute apiKey sL eL now g err resp body true).invocations :=
  ⟨⟨_, rfl, invocationsOk_callBingApi err resp body⟩,
   invocationsOk_callBingApi err resp body,
   invocationsOk_callBingApi err resp body⟩

/-- C3 (witness): at a concrete 200-status completion with JSON body the
exactly-once part of the contract yields one invocation. -/
theorem c3_amended_witness :
    (getWalkingRoute JsVal.undef "100 N Broad St, Philadelphia"
        "908 N 3rd St., Philadelphia" dateStub ⟨none⟩ none (some ⟨200⟩)
        (some "\x7b\x7d") true).invocations.length = 1 :=
  ((c3_amended JsVal.undef "100 N Broad St, Philadelphia"
    "908 N 3rd St., Philadelphia" dateStub ⟨none⟩ none (some ⟨200⟩)
    (some "\x7b\x7d")).2.1).2.1 rfl rfl

/-- C10: when the API key is `undefined`, no operation validates or fails
locally: each of the three operations still builds its request URL, whose
query string contains the `key` parameter with the literal encoded value
`undefined`, and proceeds to the transport. -/
theorem c10_undefined_key (sL eL : String) (now : UTCDate) (g : Globals)
    (err : Option TransportErr) (resp : Option Response) (body : Option String)
    (hasCallback : Bool) :
    (∃ ot, getTransitRoute JsVal.undef sL eL now g err resp body hasCallback =
        some ot ∧
      ∃ a b, ot.requestUrl = a ++ ("key=undefined" ++ b)) ∧
    (∃ a b, (getWalkingRoute JsVal.undef sL eL now g err resp body
        hasCallback).requestUrl = a ++ ("key=undefined" ++ b)) ∧
    (∃ a b, (getDrivingRoute JsVal.undef sL eL now g err resp body
        hasCallback).requestUrl = a ++ ("key=undefined" ++ b)) := by
  have hne := formatTransitTravelTime_ne_empty now
  have hconv : convertLocationsAndOptionsToQueryStringArgs JsVal.undef sL eL
      (RouteOptions.mk "time" "mi" "json" (some (formatTransitTravelTime now))
        (some "Departure") (some 3)) =
      [("wp.0", JsVal.str sL), ("wp.1", JsVal.str eL), ("key", JsVal.undef),
       ("o", JsVal.str "json"), ("optmz", JsVal.str "time"),
       ("du", JsVal.str "mi"), ("dt", JsVal.str (formatTransitTravelTime now)),
       ("tt", JsVal.str "Departure"), ("maxSolutions", JsVal.num 3)] := by
    simp [convertLocationsAndOptionsToQueryStringArgs, hne]
  refine ⟨⟨_, rfl, ?_⟩, ?_, ?_⟩
  · show ∃ a b, createTransitUrl (some (convertLocationsAndOptionsToQueryStringArgs
      JsVal.undef sL eL (RouteOptions.mk "time" "mi" "json"
        (some (formatTransitTravelTime now)) (some "Departure") (some 3)))) =
      a ++ ("key=undefined" ++ b)
    rw [hconv]
    show ∃ a b, ((SERVICE_URL ++ "/") ++ TRANSIT_RESOURCE) ++ ("?" ++
      ((renderArg ("wp.0", JsVal.str sL) ++ "&") ++
      ((renderArg ("wp.1", JsVal.str eL) ++ "&") ++
      (("key=undefined" ++ "&") ++
      ((renderArg ("o", JsVal.str "json") ++ "&") ++
      ((renderArg ("optmz", JsVal.str "time") ++ "&") ++
      ((renderArg ("du", JsVal.str "mi") ++ "&") ++
      ((renderArg ("dt", JsVal.str (formatTransitTravelTime now)) ++ "&") ++
      ((renderArg ("tt", JsVal.str "Departure") ++ "&") ++
      renderArg ("maxSolutions", JsVal.num 3)))))))))) = a ++ ("key=undefined" ++ b)
    refine ⟨((SERVICE_URL ++ "/") ++ TRANSIT_RESOURCE) ++ "?" ++
      (renderArg ("wp.0", JsVal.str sL) ++ "&") ++
      (renderArg ("wp.1", JsVal.str eL) ++ "&"),
      "&" ++ ((renderArg ("o", JsVal.str "json") ++ "&") ++
      ((renderArg ("optmz", JsVal.str "time") ++ "&") ++
      ((renderArg ("du", JsVal.str "mi") ++ "&") ++
      ((renderArg ("dt", JsVal.str (formatTransitTravelTime now)) ++ "&") ++
      ((renderArg ("tt", JsVal.str "Departure") ++ "&") ++
      renderArg ("maxSolutions", JsVal.num 3)))))), ?_⟩
    simp only [String.append_assoc]
  · show ∃ a b, ((SERVICE_URL ++ "/") ++ WALKING_RESOURCE) ++ ("?" ++
      ((renderArg ("wp.0", JsVal.str sL) ++ "&") ++
      ((renderArg ("wp.1", JsVal.str eL) ++ "&") ++
      (("key=undefined" ++ "&") ++
      ((renderArg ("o", JsVal.str "json") ++ "&") ++
      ((renderArg ("optmz", JsVal.str "distance") ++ "&") ++
      renderArg ("du", JsVal.str "mi"))))))) = a ++ ("key=undefined" ++ b)
    refine ⟨((SERVICE_URL ++ "/") ++ WALKING_RESOURCE) ++ "?" ++
      (renderArg ("wp.0", JsVal.str sL) ++ "&") ++
      (renderArg ("wp.1", JsVal.str eL) ++ "&"),
      "&" ++ ((renderArg ("o", JsVal.str "json") ++ "&") ++
      ((renderArg ("optmz", JsVal.str "distance") ++ "&") ++
      renderArg ("du", JsVal.str "mi"))), ?_⟩
    simp only [String.append_assoc]
  · show ∃ a b, ((SERVICE_URL ++ "/") ++ DRIVING_RESOURCE) ++ ("?" ++
      ((renderArg ("wp.0", JsVal.str sL) ++ "&") ++
      ((renderArg ("wp.1", JsVal.str eL) ++ "&") ++
      (("key=undefined" ++ "&") ++
      ((renderArg ("o", JsVal.str "json") ++ "&") ++
      ((renderArg ("optmz", JsVal.str "time") ++ "&") ++
      renderArg ("du", JsVal.str "mi"))))))) = a ++ ("key=undefined" ++ b)
    refine ⟨((SERVICE_URL ++ "/") ++ DRIVING_RESOURCE) ++ "?" ++
      (renderArg ("wp.0", JsVal.str sL) ++ "&") ++
      (renderArg ("wp.1", JsVal.str eL) ++ "&"),
      "&" ++ ((renderArg ("o", JsVal.str "json") ++ "&") ++
      ((renderArg ("optmz", JsVal.str "time") ++ "&") ++
      renderArg ("du", JsVal.str "mi"))), ?_⟩
    simp only [String.append_assoc]
